import Mathlib

/-!
Shallow embedding of `src/check_aws_budgets.py`, an Icinga/Nagios plug-in
that checks AWS budgets in an account.

Modelling conventions:
* AWS returns amounts as decimal strings; the Python code keeps the raw
  string where it renders perfdata and applies `float(...)` where it
  compares.  An `Amt` carries both views: `raw`, the string as supplied by
  the provider, and `val : ℚ`, the numeric value that the `float` parse of
  `raw` denotes.  Comparisons on IEEE doubles agree with comparisons of the
  rationals they denote, so `ℚ` comparison is a faithful model of the
  `float` comparison in the source.
* Budget records are nested dicts in the source
  (`budget['BudgetLimit']['Amount']`, etc.); fields whose absence the
  source can observe (`BudgetLimit`, `CalculatedSpend.ForecastedSpend`,
  `CalculatedSpend.ActualSpend`) are `Option`s, and a lookup of a missing
  key is a `KeyError`.
* `sys.exit(code)` after a `print` is modelled as `RunResult.exited output
  code`; an exception that no handler catches is `RunResult.crashed err`
  (CPython then terminates with interpreter exit status 1, not with the
  plugin's `sys.exit` code).
* The boto3 calls are opaque: a provider interaction either yields data,
  or raises `BotoCoreError`, or raises `ClientError`
  (`ProviderOutcome`).
-/

namespace CheckAwsBudgets

/-- One decimal amount as delivered by AWS: the raw JSON string and the
rational value its `float(...)` parse denotes. -/
structure Amt where
  raw : String
  val : ℚ
deriving DecidableEq, Repr

/-- An `{'Amount': ..., 'Unit': ...}` sub-dict of a budget record. -/
structure Spend where
  amount : Amt
  unit : String
deriving DecidableEq, Repr

/-- The `CalculatedSpend` sub-dict: `ForecastedSpend` is present only for
budget types with a forecast; `ActualSpend` can be absent only in a
malformed record. -/
structure CalculatedSpend where
  forecastedSpend : Option Spend
  actualSpend : Option Spend
deriving DecidableEq, Repr

/-- One budget record (`page['Budgets'][i]` / `describe_budget(...)['Budget']`). -/
structure Budget where
  budgetName : String
  budgetLimit : Option Spend
  calculatedSpend : CalculatedSpend
deriving DecidableEq, Repr

/-- A Python exception that escapes, or is caught by, a handler in the
source: `KeyError` from a missing dict key, `ClientError` from botocore. -/
inductive PyErr where
  | keyError
  | clientError (msg : String)
deriving DecidableEq, Repr

/-- How one run of the plugin terminates: a `print` followed by
`sys.exit code`, or an uncaught exception (CPython prints a traceback and
exits with interpreter status 1). -/
inductive RunResult where
  | exited (output : String) (code : Nat)
  | crashed (err : PyErr)
deriving DecidableEq, Repr

/-- The exit code passed to `sys.exit`, when the run terminates through
`sys.exit` at all. -/
def exitCode : RunResult → Option Nat
  | .exited _ c => some c
  | .crashed _ => none

def STATE_OK : Nat := 0
def STATE_WARN : Nat := 1
def STATE_CRIT : Nat := 2
def STATE_UNKNOWN : Nat := 3

/-- Outcome of the opaque boto3 interaction that produces an `α`:
data, or one of the two botocore exception families. -/
inductive ProviderOutcome (α : Type) where
  | ok (val : α)
  | botoCoreError (msg : String)
  | clientError (msg : String)

/-- Python's `f"{x:.2f}"` on the exact rational value: round to hundredths
with ties to even (IEEE round-half-even, which CPython's float `__format__`
performs on the stored double), then print with exactly two fractional
digits.  Faithful whenever the double stores the rational exactly, which
holds for every amount used in the theorems below.  The sign of a negative
value that rounds to zero is not modelled (amounts are non-negative). -/
def roundHalfEven100 (q : ℚ) : ℤ :=
  let n := q.num * 100
  let d : ℤ := (q.den : ℤ)
  let f := Int.fdiv n d
  let rem2 := 2 * (n - f * d)
  if rem2 < d then f
  else if rem2 = d then (if f % 2 = 0 then f else f + 1)
  else f + 1

def fmt2 (q : ℚ) : String :=
  let n := roundHalfEven100 q
  let m := n.natAbs
  let sign := if n < 0 then "-" else ""
  let ip := m / 100
  let fp := m % 100
  sign ++ toString ip ++ "." ++ (if fp < 10 then "0" else "") ++ toString fp

/-- The descriptor the forecast branch of `get_overspend` appends:
`f"{name}(fcst:{forecast:.2f};limit:{limit:.2f})"` (an f-string, so it
interpolates). -/
def fcstDesc (name : String) (forecast limit : ℚ) : String :=
  name ++ "(fcst:" ++ fmt2 forecast ++ ";limit:" ++ fmt2 limit ++ ")"

/-- The descriptor the actual branch of `get_overspend` appends.  In the
source this is a PLAIN string literal, not an f-string — the `f` prefix is
missing — so the placeholders are never interpolated and every
actual-basis record contributes this same literal text. -/
def actDescLiteral : String :=
  "\x7bname\x7d(act:\x7bactual:.2f\x7d;limit:\x7blimit:.2f\x7d)"

/-- Body of the `for budget in budgets` loop of `get_overspend`: which
bucket (`True` = overspent) the record goes to and the descriptor string
appended there.  `budget['BudgetLimit']['Amount']` is looked up outside
the `try`, so its `KeyError` escapes; the `try` covers only the
`ForecastedSpend` path, and its `except KeyError` handler looks up
`ActualSpend`, whose own `KeyError` escapes. -/
def overspendStep (budget : Budget) : Except PyErr (Bool × String) :=
  match budget.budgetLimit with
  | none => .error .keyError
  | some limitSpend =>
    let limit := limitSpend.amount.val
    match budget.calculatedSpend.forecastedSpend with
    | some fSpend =>
      let forecast := fSpend.amount.val
      .ok (decide (forecast > limit), fcstDesc budget.budgetName forecast limit)
    | none =>
      match budget.calculatedSpend.actualSpend with
      | none => .error .keyError
      | some aSpend =>
        .ok (decide (aSpend.amount.val > limit), actDescLiteral)

/-- `get_overspend(budgets)`: the pair `(res[True], res[False])` of
descriptor lists, in input order, or the first uncaught exception. -/
def get_overspend : List Budget → Except PyErr (List String × List String)
  | [] => .ok ([], [])
  | budget :: rest =>
    match overspendStep budget with
    | .error e => .error e
    | .ok (flag, desc) =>
      match get_overspend rest with
      | .error e => .error e
      | .ok (ts, fs) =>
        if flag then .ok (desc :: ts, fs) else .ok (ts, desc :: fs)

/-- Body of the `for budget in budgets` loop of `get_perfdata`: one metric
token `f"'{label}'={value}{uom};{limit};{limit}"`, built from the RAW
strings of the record with no numeric formatting.  A missing
`ActualSpend` or `BudgetLimit` raises `KeyError`, uncaught. -/
def perfToken (budget : Budget) : Except PyErr String :=
  match budget.calculatedSpend.actualSpend with
  | none => .error .keyError
  | some aSpend =>
    match budget.budgetLimit with
    | none => .error .keyError
    | some limitSpend =>
      .ok ("'" ++ budget.budgetName ++ "'=" ++ aSpend.amount.raw ++ aSpend.unit
           ++ ";" ++ limitSpend.amount.raw ++ ";" ++ limitSpend.amount.raw)

/-- The `perfdata` list built by `get_perfdata`'s loop. -/
def perfTokens : List Budget → Except PyErr (List String)
  | [] => .ok []
  | budget :: rest =>
    match perfToken budget with
    | .error e => .error e
    | .ok tok =>
      match perfTokens rest with
      | .error e => .error e
      | .ok toks => .ok (tok :: toks)

/-- `get_perfdata(budgets)`: `f"| {' '.join(perfdata)}"`. -/
def get_perfdata (budgets : List Budget) : Except PyErr String :=
  match perfTokens budgets with
  | .error e => .error e
  | .ok toks => .ok ("| " ++ String.intercalate " " toks)

/-- `fetch_budget(name)`: both `BotoCoreError` and `ClientError` are
caught and turned into `print(f"UNKNOWN - {err}"); sys.exit(STATE_UNKNOWN)`. -/
def fetch_budget (outcome : ProviderOutcome Budget) : Except RunResult Budget :=
  match outcome with
  | .ok b => .ok b
  | .botoCoreError msg => .error (.exited ("UNKNOWN - " ++ msg) STATE_UNKNOWN)
  | .clientError msg => .error (.exited ("UNKNOWN - " ++ msg) STATE_UNKNOWN)

/-- `fetch_budgets()`: the handler catches ONLY `BotoCoreError`; a
`ClientError` from the sts or budgets calls propagates uncaught. -/
def fetch_budgets (outcome : ProviderOutcome (List Budget)) :
    Except RunResult (List Budget) :=
  match outcome with
  | .ok bs => .ok bs
  | .botoCoreError msg => .error (.exited ("UNKNOWN - " ++ msg) STATE_UNKNOWN)
  | .clientError msg => .error (.crashed (.clientError msg))

/-- The two CLI modes of `main()`: `--budget NAME` given (one
`fetch_budget` call) or absent (one `fetch_budgets` call), each with its
provider outcome. -/
inductive Invocation where
  | named (outcome : ProviderOutcome Budget)
  | all (outcome : ProviderOutcome (List Budget))

/-- `main()` after argument parsing: fetch, classify, render perfdata,
choose the output line and exit code. -/
def main (inv : Invocation) : RunResult :=
  let fetched : Except RunResult (List Budget) :=
    match inv with
    | .named outcome =>
      match fetch_budget outcome with
      | .error halt => .error halt
      | .ok b => .ok [b]
    | .all outcome => fetch_budgets outcome
  match fetched with
  | .error halt => halt
  | .ok budgets =>
    match get_overspend budgets with
    | .error e => .crashed e
    | .ok (ts, fs) =>
      match get_perfdata budgets with
      | .error e => .crashed e
      | .ok perfdata =>
        if ts = [] then
          .exited ("Budgets forecast within limit: "
                   ++ String.intercalate ", " fs ++ perfdata) STATE_OK
        else
          .exited ("Budget forecast exceeds limit: "
                   ++ String.intercalate ", " ts ++ perfdata) STATE_CRIT

/-- Decidable equality for `Except`, so concrete runs can be checked by
`decide`. -/
instance exceptDecEq {ε α : Type} [DecidableEq ε] [DecidableEq α] :
    DecidableEq (Except ε α) := fun x y =>
  match x, y with
  | .error e1, .error e2 =>
    if h : e1 = e2 then .isTrue (h ▸ rfl)
    else .isFalse (fun hc => h (Except.error.inj hc))
  | .error _, .ok _ => .isFalse (fun hc => Except.noConfusion hc)
  | .ok _, .error _ => .isFalse (fun hc => Except.noConfusion hc)
  | .ok a1, .ok a2 =>
    if h : a1 = a2 then .isTrue (h ▸ rfl)
    else .isFalse (fun hc => h (Except.ok.inj hc))

/-! ## Sample records used by witnesses and counterexamples -/

/-- A spend of `val` US dollars whose provider-supplied raw string is `raw`. -/
def usd (raw : String) (val : ℚ) : Spend :=
  { amount := { raw := raw, val := val }, unit := "USD" }

/-- Scenario A of the spec: limit 100, actual 80, forecast 120. -/
def budgetA : Budget :=
  { budgetName := "infra"
    budgetLimit := some (usd "100.0" 100)
    calculatedSpend :=
      { forecastedSpend := some (usd "120.0" 120)
        actualSpend := some (usd "80.0" 80) } }

/-- Scenario B of the spec: limit 100, actual 80, no forecast. -/
def budgetB : Budget :=
  { budgetName := "infra"
    budgetLimit := some (usd "100.0" 100)
    calculatedSpend :=
      { forecastedSpend := none
        actualSpend := some (usd "80.0" 80) } }

/-- A budget whose forecast equals its limit exactly. -/
def budgetEq : Budget :=
  { budgetName := "edge"
    budgetLimit := some (usd "100.0" 100)
    calculatedSpend :=
      { forecastedSpend := some (usd "100.0" 100)
        actualSpend := some (usd "80.0" 80) } }

/-- A compliant actual-basis budget (for scenario E's second record). -/
def budgetCompliant : Budget :=
  { budgetName := "dev"
    budgetLimit := some (usd "200.0" 200)
    calculatedSpend :=
      { forecastedSpend := none
        actualSpend := some (usd "50.0" 50) } }

/-- A malformed record: the `BudgetLimit` key is missing. -/
def budgetNoLimit : Budget :=
  { budgetName := "broken"
    budgetLimit := none
    calculatedSpend :=
      { forecastedSpend := none
        actualSpend := some (usd "80.0" 80) } }

/-- A malformed record: the `ActualSpend` key is missing (forecast present). -/
def budgetNoActual : Budget :=
  { budgetName := "broken2"
    budgetLimit := some (usd "100.0" 100)
    calculatedSpend :=
      { forecastedSpend := some (usd "120.0" 120)
        actualSpend := none } }

/-! ## Helper lemmas -/

/-- The per-record outcomes of `get_overspend`'s loop, in input order
(a specification device for the partition/totality statements). -/
def overspendSteps : List Budget → Except PyErr (List (Bool × String))
  | [] => .ok []
  | budget :: rest =>
    match overspendStep budget with
    | .error e => .error e
    | .ok p =>
      match overspendSteps rest with
      | .error e => .error e
      | .ok ps => .ok (p :: ps)

theorem overspendStep_fcst (b : Budget) (L f : Spend)
    (hL : b.budgetLimit = some L)
    (hf : b.calculatedSpend.forecastedSpend = some f) :
    overspendStep b = .ok (decide (f.amount.val > L.amount.val),
      fcstDesc b.budgetName f.amount.val L.amount.val) := by
  simp [overspendStep, hL, hf]

theorem overspendStep_act (b : Budget) (L a : Spend)
    (hL : b.budgetLimit = some L)
    (hf : b.calculatedSpend.forecastedSpend = none)
    (ha : b.calculatedSpend.actualSpend = some a) :
    overspendStep b = .ok (decide (a.amount.val > L.amount.val), actDescLiteral) := by
  simp [overspendStep, hL, hf, ha]

theorem overspendStep_error_eq (b : Budget) (e : PyErr)
    (h : overspendStep b = .error e) : e = .keyError := by
  rcases hL : b.budgetLimit with _ | L <;>
    rcases hf : b.calculatedSpend.forecastedSpend with _ | f <;>
      rcases ha : b.calculatedSpend.actualSpend with _ | a <;>
        simp [overspendStep, hL, hf, ha] at h <;> simp [h.symm]

theorem get_overspend_error_eq (budgets : List Budget) (e : PyErr)
    (h : get_overspend budgets = .error e) : e = .keyError := by
  induction budgets with
  | nil => simp [get_overspend] at h
  | cons b rest ih =>
    unfold get_overspend at h
    cases hstep : overspendStep b with
    | error e2 =>
      rw [hstep] at h
      simp at h
      exact h ▸ overspendStep_error_eq b e2 hstep
    | ok p =>
      obtain ⟨flag, desc⟩ := p
      rw [hstep] at h
      cases hrest : get_overspend rest with
      | error e2 =>
        rw [hrest] at h
        simp at h
        exact ih (h ▸ hrest)
      | ok q =>
        rw [hrest] at h
        obtain ⟨ts, fs⟩ := q
        by_cases hflag : flag = true <;> simp [hflag] at h

theorem get_overspend_mem_error (budgets : List Budget) (b : Budget)
    (hmem : b ∈ budgets) (hb : overspendStep b = .error .keyError) :
    get_overspend budgets = .error .keyError := by
  induction budgets with
  | nil => cases hmem
  | cons hd rest ih =>
    rcases List.mem_cons.mp hmem with heq | htl
    · subst heq
      unfold get_overspend
      rw [hb]
    · unfold get_overspend
      cases hstep : overspendStep hd with
      | error e2 => rw [overspendStep_error_eq hd e2 hstep]
      | ok p =>
        obtain ⟨flag, desc⟩ := p
        rw [ih htl]

theorem perfToken_error_eq (b : Budget) (e : PyErr)
    (h : perfToken b = .error e) : e = .keyError := by
  rcases hL : b.budgetLimit with _ | L <;>
    rcases ha : b.calculatedSpend.actualSpend with _ | a <;>
      simp [perfToken, hL, ha] at h <;> simp [h.symm]

theorem perfToken_error_of_bad (b : Budget)
    (hbad : b.budgetLimit = none ∨ b.calculatedSpend.actualSpend = none) :
    perfToken b = .error .keyError := by
  rcases hbad with hL | ha
  · rcases hact : b.calculatedSpend.actualSpend with _ | a <;> simp [perfToken, hL, hact]
  · simp [perfToken, ha]

theorem perfTokens_error_eq (budgets : List Budget) (e : PyErr)
    (h : perfTokens budgets = .error e) : e = .keyError := by
  induction budgets with
  | nil => simp [perfTokens] at h
  | cons b rest ih =>
    unfold perfTokens at h
    cases hstep : perfToken b with
    | error e2 =>
      rw [hstep] at h
      simp at h
      exact perfToken_error_eq b e (h ▸ hstep)
    | ok tok =>
      rw [hstep] at h
      cases hrest : perfTokens rest with
      | error e2 =>
        rw [hrest] at h
        simp at h
        exact ih (h ▸ hrest)
      | ok toks => rw [hrest] at h; simp at h

theorem perfTokens_mem_error (budgets : List Budget) (b : Budget)
    (hmem : b ∈ budgets) (hb : perfToken b = .error .keyError) :
    perfTokens budgets = .error .keyError := by
  induction budgets with
  | nil => cases hmem
  | cons hd rest ih =>
    rcases List.mem_cons.mp hmem with heq | htl
    · subst heq
      unfold perfTokens
      rw [hb]
    · unfold perfTokens
      cases hstep : perfToken hd with
      | error e2 => rw [perfToken_error_eq hd e2 hstep]
      | ok tok => rw [ih htl]

theorem perfTokens_length (budgets : List Budget) (toks : List String)
    (h : perfTokens budgets = .ok toks) : toks.length = budgets.length := by
  induction budgets generalizing toks with
  | nil => simp [perfTokens] at h; simp [h.symm]
  | cons b rest ih =>
    unfold perfTokens at h
    cases hstep : perfToken b with
    | error e => rw [hstep] at h; simp at h
    | ok tok =>
      rw [hstep] at h
      cases hrest : perfTokens rest with
      | error e => rw [hrest] at h; simp at h
      | ok toks2 =>
        rw [hrest] at h
        simp at h
        subst h
        simp [ih toks2 hrest]

theorem get_overspend_of_steps (budgets : List Budget)
    (pairs : List (Bool × String))
    (h : overspendSteps budgets = .ok pairs) :
    get_overspend budgets =
      .ok ((pairs.filter (fun p => p.1)).map Prod.snd,
           (pairs.filter (fun p => !p.1)).map Prod.snd) := by
  induction budgets generalizing pairs with
  | nil =>
    simp [overspendSteps] at h
    subst h
    simp [get_overspend]
  | cons b rest ih =>
    unfold overspendSteps at h
    cases hstep : overspendStep b with
    | error e => rw [hstep] at h; simp at h
    | ok p =>
      rw [hstep] at h
      cases hrest : overspendSteps rest with
      | error e => rw [hrest] at h; simp at h
      | ok ps =>
        rw [hrest] at h
        simp at h
        subst h
        obtain ⟨flag, desc⟩ := p
        unfold get_overspend
        rw [hstep, ih ps hrest]
        by_cases hflag : flag = true <;> simp [hflag]

theorem get_overspend_ts_nil (budgets : List Budget) (ts fs : List String)
    (h : get_overspend budgets = .ok (ts, fs)) :
    (ts = [] ↔ ∀ b ∈ budgets, ∃ d, overspendStep b = .ok (false, d)) := by
  induction budgets generalizing ts fs with
  | nil =>
    simp [get_overspend] at h
    simp [h.1.symm]
  | cons b rest ih =>
    unfold get_overspend at h
    cases hstep : overspendStep b with
    | error e => rw [hstep] at h; simp at h
    | ok p =>
      obtain ⟨flag, desc⟩ := p
      rw [hstep] at h
      cases hrest : get_overspend rest with
      | error e => rw [hrest] at h; simp at h
      | ok q =>
        obtain ⟨ts2, fs2⟩ := q
        rw [hrest] at h
        cases flag with
        | true =>
          simp at h
          obtain ⟨h1, _⟩ := h
          constructor
          · intro hnil; rw [← h1] at hnil; cases hnil
          · intro hall
            obtain ⟨d, hd⟩ := hall b (List.mem_cons_self b rest)
            rw [hstep] at hd
            simp at hd
        | false =>
          simp at h
          obtain ⟨h1, _⟩ := h
          rw [← h1]
          rw [ih ts2 fs2 hrest]
          constructor
          · intro hall b2 hmem
            rcases List.mem_cons.mp hmem with heq | htl
            · subst heq; exact ⟨desc, hstep⟩
            · exact hall b2 htl
          · intro hall b2 hmem
            exact hall b2 (List.mem_cons_of_mem b hmem)

theorem main_all_ok (budgets : List Budget) (ts fs : List String) (perf : String)
    (hov : get_overspend budgets = .ok (ts, fs))
    (hpf : get_perfdata budgets = .ok perf) :
    main (.all (.ok budgets)) =
      if ts = [] then
        .exited ("Budgets forecast within limit: "
                 ++ String.intercalate ", " fs ++ perf) STATE_OK
      else
        .exited ("Budget forecast exceeds limit: "
                 ++ String.intercalate ", " ts ++ perf) STATE_CRIT := by
  simp [main, fetch_budgets, hov, hpf]

theorem main_all_overspend_error (budgets : List Budget) (e : PyErr)
    (hov : get_overspend budgets = .error e) :
    main (.all (.ok budgets)) = .crashed e := by
  simp [main, fetch_budgets, hov]

theorem main_all_perfdata_error (budgets : List Budget)
    (ts fs : List String) (e : PyErr)
    (hov : get_overspend budgets = .ok (ts, fs))
    (hpf : get_perfdata budgets = .error e) :
    main (.all (.ok budgets)) = .crashed e := by
  simp [main, fetch_budgets, hov, hpf]

/-! ## Claim theorems -/

/-- C1: forecast-first classification.  With `forecastedSpend` present, the
loop body of `get_overspend` decides overspend by comparing the forecast
amount to the limit — the result is a function of forecast and limit alone,
whatever `actualSpend` holds; with `forecastedSpend` absent it compares
`actualSpend.amount` to the limit. -/
theorem forecast_first_classification (b : Budget) (L f a : Spend)
    (hL : b.budgetLimit = some L) :
    (b.calculatedSpend.forecastedSpend = some f →
      overspendStep b = .ok (decide (f.amount.val > L.amount.val),
        fcstDesc b.budgetName f.amount.val L.amount.val)) ∧
    (b.calculatedSpend.forecastedSpend = none →
      b.calculatedSpend.actualSpend = some a →
      overspendStep b = .ok (decide (a.amount.val > L.amount.val), actDescLiteral)) :=
  ⟨fun hf => overspendStep_fcst b L f hL hf,
   fun hf ha => overspendStep_act b L a hL hf ha⟩

/-- C1 witness: scenario A's record (limit 100, actual 80, forecast 120) is
classified on the forecast basis and flagged overspent even though the
actual spend is under the limit. -/
theorem forecast_first_classification_witness :
    overspendStep budgetA = .ok (true, "infra(fcst:120.00;limit:100.00)") := by
  have h := (forecast_first_classification budgetA (usd "100.0" 100) (usd "120.0" 120)
    (usd "80.0" 80) rfl).1 rfl
  rw [h]
  decide

/-- C2: aggregation and exit codes.  When the overspent bucket is non-empty,
`main` prints the CRITICAL line and exits 2; when it is empty (including the
empty account) it prints the OK line and exits 0; and the bucket is empty
exactly when no record classified as overspent. -/
theorem aggregation_exit_codes (budgets : List Budget)
    (ts fs : List String) (perf : String)
    (hov : get_overspend budgets = .ok (ts, fs))
    (hpf : get_perfdata budgets = .ok perf) :
    (ts ≠ [] →
      main (.all (.ok budgets)) =
        .exited ("Budget forecast exceeds limit: "
                 ++ String.intercalate ", " ts ++ perf) STATE_CRIT) ∧
    (ts = [] →
      main (.all (.ok budgets)) =
        .exited ("Budgets forecast within limit: "
                 ++ String.intercalate ", " fs ++ perf) STATE_OK) ∧
    (ts = [] ↔ ∀ b ∈ budgets, ∃ d, overspendStep b = .ok (false, d)) := by
  refine ⟨fun hne => ?_, fun hnil => ?_, get_overspend_ts_nil budgets ts fs hov⟩
  · rw [main_all_ok budgets ts fs perf hov hpf, if_neg hne]
  · rw [main_all_ok budgets ts fs perf hov hpf, if_pos hnil]

/-- C2 witness: the empty account (all-budgets mode, zero records) exits OK
with code 0. -/
theorem aggregation_exit_codes_witness :
    main (.all (.ok [])) =
      .exited ("Budgets forecast within limit: "
               ++ String.intercalate ", " [] ++ "| ") STATE_OK :=
  (aggregation_exit_codes [] [] [] "| " rfl rfl).2.1 rfl

/-- C3: strict-inequality overspend.  Whatever the comparison basis, the
overspent flag is true exactly when the comparison amount strictly exceeds
the limit; when it equals the limit the record is within-limit. -/
theorem strict_inequality_overspend (b : Budget) (L amt : Spend)
    (flag : Bool) (desc : String)
    (hL : b.budgetLimit = some L)
    (hbasis : b.calculatedSpend.forecastedSpend = some amt ∨
      (b.calculatedSpend.forecastedSpend = none ∧
       b.calculatedSpend.actualSpend = some amt))
    (hok : overspendStep b = .ok (flag, desc)) :
    (flag = true ↔ amt.amount.val > L.amount.val) ∧
    (amt.amount.val = L.amount.val → flag = false) := by
  have hflag : flag = decide (amt.amount.val > L.amount.val) := by
    rcases hbasis with hf | ⟨hf, ha⟩
    · rw [overspendStep_fcst b L amt hL hf] at hok
      simp at hok
      exact hok.1.symm
    · rw [overspendStep_act b L amt hL hf ha] at hok
      simp at hok
      exact hok.1.symm
  constructor
  · simp [hflag]
  · intro he
    simp [hflag, he]

/-- C3 witness: a forecast exactly equal to the limit (100 = 100) is
classified within-limit. -/
theorem strict_inequality_overspend_witness :
    overspendStep budgetEq = .ok (false, fcstDesc "edge" 100 100) ∧ false = false := by
  have h0 : overspendStep budgetEq = .ok (false, fcstDesc "edge" 100 100) := by decide
  exact ⟨h0, (strict_inequality_overspend budgetEq (usd "100.0" 100) (usd "100.0" 100)
    false (fcstDesc "edge" 100 100) rfl (Or.inl rfl) h0).2 rfl⟩

/-- C4 (code bug): the actual branch of `get_overspend` appends the raw
template text because its string literal lacks the `f` prefix, so scenario
B's record yields that literal, not `infra(act:80.00;limit:100.00)`.  The
run's severity and exit code are unaffected; only the descriptor text is
wrong. -/
theorem descriptor_actual_branch_literal :
    get_overspend [budgetB] = .ok ([], [actDescLiteral]) ∧
    actDescLiteral ≠ "infra(act:80.00;limit:100.00)" ∧
    main (.all (.ok [budgetB])) =
      .exited ("Budgets forecast within limit: " ++ actDescLiteral
               ++ "| 'infra'=80.0USD;100.0;100.0") STATE_OK := by
  refine ⟨by decide, by decide, by decide⟩

/-- C5 counterexample: in all-budgets mode a `ClientError` (the exception
an authorization failure raises) is NOT caught by `fetch_budgets`, so the
run crashes with an uncaught exception instead of exiting UNKNOWN with
code 3. -/
theorem provider_failure_counterexample :
    main (.all (.clientError "AccessDenied")) =
      .crashed (.clientError "AccessDenied") ∧
    exitCode (main (.all (.clientError "AccessDenied"))) ≠ some STATE_UNKNOWN :=
  ⟨rfl, by decide⟩

/-- C5 amended: in named-budget mode every provider failure (BotoCoreError
or ClientError alike) terminates the run with the UNKNOWN line and exit
code 3, before any classification; in all-budgets mode only BotoCoreError
does — a ClientError propagates as an uncaught exception. -/
theorem provider_failure_handling (msg : String) :
    main (.named (.botoCoreError msg)) =
      .exited ("UNKNOWN - " ++ msg) STATE_UNKNOWN ∧
    main (.named (.clientError msg)) =
      .exited ("UNKNOWN - " ++ msg) STATE_UNKNOWN ∧
    main (.all (.botoCoreError msg)) =
      .exited ("UNKNOWN - " ++ msg) STATE_UNKNOWN ∧
    main (.all (.clientError msg)) = .crashed (.clientError msg) :=
  ⟨rfl, rfl, rfl, rfl⟩

/-- C6 counterexample: a fetched record missing `BudgetLimit` makes the run
crash with an uncaught `KeyError` (interpreter exit status 1), not exit
with severity UNKNOWN / code 3. -/
theorem malformed_record_counterexample :
    main (.all (.ok [budgetNoLimit])) = .crashed .keyError ∧
    exitCode (main (.all (.ok [budgetNoLimit]))) ≠ some STATE_UNKNOWN :=
  ⟨by decide, by decide⟩

/-- C6 amended: a fetched record missing `actualSpend` or `limit` always
aborts the run — it is never skipped silently and never reported as a
partial OK — but the abort is an uncaught `KeyError` crash, not severity
UNKNOWN with exit code 3. -/
theorem malformed_record_aborts (budgets : List Budget) (b : Budget)
    (hmem : b ∈ budgets)
    (hbad : b.budgetLimit = none ∨ b.calculatedSpend.actualSpend = none) :
    main (.all (.ok budgets)) = .crashed .keyError := by
  cases hov : get_overspend budgets with
  | error e =>
    rw [main_all_overspend_error budgets e hov,
        get_overspend_error_eq budgets e hov]
  | ok q =>
    obtain ⟨ts, fs⟩ := q
    have htok : perfToken b = .error .keyError := perfToken_error_of_bad b hbad
    have hperf : get_perfdata budgets = .error .keyError := by
      unfold get_perfdata
      rw [perfTokens_mem_error budgets b hmem htok]
    exact main_all_perfdata_error budgets ts fs .keyError hov hperf

/-- C6 witness: a record with a forecast but no `ActualSpend` crashes the
run (here in `get_perfdata`, after classification succeeded). -/
theorem malformed_record_aborts_witness :
    main (.all (.ok [budgetNoActual])) = .crashed .keyError :=
  malformed_record_aborts [budgetNoActual] budgetNoActual
    (List.mem_singleton.mpr rfl) (Or.inr rfl)

/-- C7: perfdata rendering.  The metric token is
`'name'=value uom;limit;limit` built from the record's actual spend (and
is unchanged by any forecast value); `get_perfdata` joins the tokens with
spaces behind a leading `| `; and `main` appends that block verbatim to
the summary text. -/
theorem perfdata_rendering (b : Budget) (aS LS : Spend) (fOpt : Option Spend)
    (ha : b.calculatedSpend.actualSpend = some aS)
    (hL : b.budgetLimit = some LS) :
    perfToken b = .ok ("'" ++ b.budgetName ++ "'=" ++ aS.amount.raw ++ aS.unit
      ++ ";" ++ LS.amount.raw ++ ";" ++ LS.amount.raw) ∧
    perfToken { b with calculatedSpend :=
        { b.calculatedSpend with forecastedSpend := fOpt } } = perfToken b ∧
    (∀ budgets toks, perfTokens budgets = .ok toks →
      get_perfdata budgets = .ok ("| " ++ String.intercalate " " toks)) ∧
    (∀ budgets ts fs toks, get_overspend budgets = .ok (ts, fs) →
      perfTokens budgets = .ok toks →
      ∃ txt code, main (.all (.ok budgets)) =
        .exited (txt ++ ("| " ++ String.intercalate " " toks)) code) := by
  refine ⟨by simp [perfToken, ha, hL], by simp [perfToken, ha, hL],
    fun budgets toks htoks => by unfold get_perfdata; rw [htoks],
    fun budgets ts fs toks hov htoks => ?_⟩
  have hperf : get_perfdata budgets = .ok ("| " ++ String.intercalate " " toks) := by
    unfold get_perfdata
    rw [htoks]
  by_cases hts : ts = []
  · refine ⟨"Budgets forecast within limit: " ++ String.intercalate ", " fs,
      STATE_OK, ?_⟩
    rw [main_all_ok budgets ts fs _ hov hperf, if_pos hts, String.append_assoc]
  · refine ⟨"Budget forecast exceeds limit: " ++ String.intercalate ", " ts,
      STATE_CRIT, ?_⟩
    rw [main_all_ok budgets ts fs _ hov hperf, if_neg hts, String.append_assoc]

/-- C7 witness: scenario B's record renders the token
`'infra'=80.0USD;100.0;100.0`. -/
theorem perfdata_rendering_witness :
    perfToken budgetB = .ok "'infra'=80.0USD;100.0;100.0" := by
  have h := (perfdata_rendering budgetB (usd "80.0" 80) (usd "100.0" 100)
    none rfl rfl).1
  rw [h]
  decide

/-- C8: partition and coverage of the output line.  Classification splits
the per-record results into the overspent and within-limit buckets exactly
as a stable filter on the per-record outcomes (so input order is preserved
within each bucket); the perfdata token list has one token per input
record; and when the overspent bucket is non-empty the CRITICAL summary
clause joins only that bucket while the whole perfdata block follows. -/
theorem partition_and_coverage (budgets : List Budget)
    (pairs : List (Bool × String))
    (h : overspendSteps budgets = .ok pairs) :
    get_overspend budgets =
      .ok ((pairs.filter (fun p => p.1)).map Prod.snd,
           (pairs.filter (fun p => !p.1)).map Prod.snd) ∧
    (∀ toks, perfTokens budgets = .ok toks → toks.length = budgets.length) ∧
    (∀ ts fs perf, get_overspend budgets = .ok (ts, fs) →
      get_perfdata budgets = .ok perf → ts ≠ [] →
      main (.all (.ok budgets)) =
        .exited ("Budget forecast exceeds limit: "
                 ++ String.intercalate ", " ts ++ perf) STATE_CRIT) := by
  refine ⟨get_overspend_of_steps budgets pairs h,
    fun toks htoks => perfTokens_length budgets toks htoks,
    fun ts fs perf hov hperf hne => ?_⟩
  rw [main_all_ok budgets ts fs perf hov hperf, if_neg hne]

/-- C8 witness: scenario E — one budget overspent on forecast and one
compliant gives CRITICAL, the summary clause holds only the overspent
budget's descriptor, and perfdata holds both records' tokens. -/
theorem partition_and_coverage_witness :
    get_overspend [budgetA, budgetCompliant] =
      .ok (["infra(fcst:120.00;limit:100.00)"], [actDescLiteral]) ∧
    main (.all (.ok [budgetA, budgetCompliant])) =
      .exited ("Budget forecast exceeds limit: infra(fcst:120.00;limit:100.00)"
        ++ "| 'infra'=80.0USD;100.0;100.0 'dev'=50.0USD;200.0;200.0")
        STATE_CRIT := by
  have h := partition_and_coverage [budgetA, budgetCompliant]
    [(true, "infra(fcst:120.00;limit:100.00)"), (false, actDescLiteral)]
    (by decide)
  constructor
  · rw [h.1]
    decide
  · have hm := h.2.2 ["infra(fcst:120.00;limit:100.00)"] [actDescLiteral]
      ("| " ++ "'infra'=80.0USD;100.0;100.0 'dev'=50.0USD;200.0;200.0")
      (by decide) (by decide) (by decide)
    rw [hm]
    decide

/-- C9 (implicit): classification totality.  When `get_overspend` succeeds,
every record lands in exactly one bucket: the two descriptor lists'
lengths sum to the number of input records. -/
theorem classification_totality (budgets : List Budget) (ts fs : List String)
    (h : get_overspend budgets = .ok (ts, fs)) :
    ts.length + fs.length = budgets.length := by
  induction budgets generalizing ts fs with
  | nil =>
    simp [get_overspend] at h
    simp [h.1, h.2]
  | cons b rest ih =>
    unfold get_overspend at h
    cases hstep : overspendStep b with
    | error e => rw [hstep] at h; simp at h
    | ok p =>
      obtain ⟨flag, desc⟩ := p
      rw [hstep] at h
      cases hrest : get_overspend rest with
      | error e => rw [hrest] at h; simp at h
      | ok q =>
        obtain ⟨ts2, fs2⟩ := q
        rw [hrest] at h
        have ihlen := ih ts2 fs2 hrest
        cases flag with
        | true =>
          simp at h
          obtain ⟨h1, h2⟩ := h
          rw [← h1, ← h2]
          simp only [List.length_cons]
          omega
        | false =>
          simp at h
          obtain ⟨h1, h2⟩ := h
          rw [← h1, ← h2]
          simp only [List.length_cons]
          omega

/-- C9 witness: two records, one per bucket: 1 + 1 = 2. -/
theorem classification_totality_witness :
    (1 : Nat) + 1 = 2 ∧
    get_overspend [budgetA, budgetCompliant] =
      .ok (["infra(fcst:120.00;limit:100.00)"], [actDescLiteral]) :=
  ⟨classification_totality [budgetA, budgetCompliant]
    ["infra(fcst:120.00;limit:100.00)"] [actDescLiteral] (by decide),
   by decide⟩

/-- C10 (implicit): perfdata amounts are verbatim.  The metric token copies
the actual-spend amount, its unit and the limit exactly as the raw
provider strings — changing the parsed numeric values changes nothing in
the token — so the same limit renders as `100.0` in the token while the
summary descriptor of the same record formats it as `100.00`. -/
theorem perfdata_raw_verbatim (b : Budget) (aS LS : Spend) (q1 q2 : ℚ)
    (ha : b.calculatedSpend.actualSpend = some aS)
    (hL : b.budgetLimit = some LS) :
    (perfToken b = .ok ("'" ++ b.budgetName ++ "'=" ++ aS.amount.raw ++ aS.unit
      ++ ";" ++ LS.amount.raw ++ ";" ++ LS.amount.raw) ∧
     perfToken { b with
        budgetLimit := some { LS with amount := { LS.amount with val := q2 } },
        calculatedSpend := { b.calculatedSpend with
          actualSpend := some { aS with amount := { aS.amount with val := q1 } } } }
      = perfToken b) ∧
    (perfToken budgetA = .ok "'infra'=80.0USD;100.0;100.0" ∧
     overspendStep budgetA = .ok (true, "infra(fcst:120.00;limit:100.00)")) := by
  refine ⟨⟨by simp [perfToken, ha, hL], by simp [perfToken, ha, hL]⟩,
    by decide, by decide⟩

/-- C10 witness: the token of scenario A's record, raw strings copied
verbatim. -/
theorem perfdata_raw_verbatim_witness :
    perfToken budgetA = .ok "'infra'=80.0USD;100.0;100.0" :=
  (perfdata_raw_verbatim budgetA (usd "80.0" 80) (usd "100.0" 100)
    0 0 rfl rfl).2.1

end CheckAwsBudgets
